import Mathlib

/-!
Verification of `src/tubeopt.py`: a hollow-tube sizing optimization built on a
closed-form structural response model and an external SLSQP-class solver.
The structural model and the problem wiring are embedded over the reals; the
external SciPy driver is an abstract oracle parameter.
-/

open Real

namespace TubeOpt

/-- Outputs written by `_TubeComponent.compute` (src/tubeopt.py lines 62-65),
keyed by the output names registered in `setup`. -/
structure TubeOutputs where
  area : ℝ
  thickness : ℝ
  safety_margins : ℝ
  diam_over_thickness : ℝ

/-- Embeds the combined-stress chain of `_TubeComponent.compute`
(src/tubeopt.py lines 45-53): moment of inertia, radius, axial and bending
stress components and the smoothed combined tensile stress. -/
noncomputable def tensile_stress (inner_diam outer_diam axial_force bending_moment : ℝ) : ℝ :=
  let area := 0.25 * π * (outer_diam ^ 2 - inner_diam ^ 2)
  let moment_of_inertia := π / 4 * ((outer_diam / 2) ^ 4 - (inner_diam / 2) ^ 4)
  let radius := outer_diam / 2
  let axial_stress := axial_force / area
  let bending_stress := bending_moment * radius / moment_of_inertia
  Real.sqrt ((axial_stress + bending_stress) ^ 2 + 0.001)

/-- Embeds `_TubeComponent.compute` (src/tubeopt.py lines 37-65) over the
reals.  The constructor-fixed loads `axial_force` (N) and `bending_moment`
(N·m) are passed explicitly; `inner_diam` and `outer_diam` are in meters. -/
noncomputable def compute (inner_diam outer_diam axial_force bending_moment : ℝ) : TubeOutputs :=
  let area := 0.25 * π * (outer_diam ^ 2 - inner_diam ^ 2)
  let thickness := (outer_diam - inner_diam) / 2
  let diam_over_thickness := outer_diam / thickness
  let tensile_yield : ℝ := 350e6
  let safety_margin :=
    tensile_yield / tensile_stress inner_diam outer_diam axial_force bending_moment - 1
  { area := area, thickness := thickness,
    safety_margins := safety_margin, diam_over_thickness := diam_over_thickness }

/-- An input declared by `add_input` in `_TubeComponent.setup`: name, initial
value and unit string. -/
structure InputDecl where
  name : String
  val : ℝ
  units : String

/-- A design variable declared by `add_design_var`: name and bounds. -/
structure DesignVar where
  name : String
  lower : ℝ
  upper : ℝ

/-- An inequality constraint declared by `add_constraint`: name and optional
lower/upper bounds. -/
structure ConstraintDecl where
  name : String
  lower : Option ℝ
  upper : Option ℝ

/-- The optimization problem assembled by `_TubeComponent.setup`: declared
inputs with initial values, design variables with bounds, constraints, and the
name of the objective to minimize. -/
structure ProblemSetup where
  inputs : List InputDecl
  design_vars : List DesignVar
  constraints : List ConstraintDecl
  objective : String

/-- Embeds `_TubeComponent.setup` (src/tubeopt.py lines 15-35).
`thickness_lower_bound` is in millimeters (divided by 1000 on registration);
`safety_margin_lower_bound` is unitless. -/
noncomputable def setup (thickness_lower_bound safety_margin_lower_bound : ℝ) : ProblemSetup :=
  { inputs := [⟨"inner_diam", 0.060, "m"⟩, ⟨"outer_diam", 0.100, "m"⟩],
    design_vars := [⟨"inner_diam", 0.005, 0.5⟩, ⟨"outer_diam", 0.01, 0.6⟩],
    constraints := [⟨"thickness", some (thickness_lower_bound / 1000), none⟩,
                    ⟨"safety_margins", some safety_margin_lower_bound, none⟩,
                    ⟨"diam_over_thickness", some 2, some 25⟩],
    objective := "area" }

/-- Rounds a real to `n` decimal places, as the reported results are rounded
by Python `round` in `TubeOptimization.optimize` (ties are immaterial to the
claims; the model rounds half up). -/
noncomputable def roundTo (n : ℕ) (x : ℝ) : ℝ :=
  ((round (x * 10 ^ n) : ℤ) : ℝ) / 10 ^ n

/-- Embeds `TubeOptimization.optimize` (src/tubeopt.py lines 87-121).  The
external `ScipyOptimizeDriver` is the oracle `driver`: given the assembled
problem it returns the failure flag of `problem.run_driver()` together with
the final iterate (inner_diam, outer_diam) in meters.  The final outputs are
read back through the model (`compute`), converted to millimeters, rounded and
returned together with the negated failure flag. -/
noncomputable def optimize (axial_force bending_moment : ℝ)
    (minimim_safety_margin minimum_thickness : ℝ)
    (driver : ProblemSetup → Bool × ℝ × ℝ) : Bool × ℝ × ℝ × ℝ × ℝ :=
  let s := setup minimum_thickness minimim_safety_margin
  let r := driver s
  let flag := r.1
  let inner_diam := r.2.1
  let outer_diam := r.2.2
  let out := compute inner_diam outer_diam axial_force bending_moment
  (!flag, roundTo 3 (1000 * inner_diam), roundTo 3 (1000 * outer_diam),
    roundTo 3 (1000 * out.thickness), roundTo 4 out.safety_margins)

/-- The keyword parameter names of `TubeOptimization.optimize`
(src/tubeopt.py line 87), in order.  Note the source spells the first one
`minimim_safety_margin`. -/
def optimize_param_names : List String := ["minimim_safety_margin", "minimum_thickness"]

/-- The default values of the keyword parameters of
`TubeOptimization.optimize` (src/tubeopt.py line 87): safety margin 0,
thickness 1 mm. -/
def optimize_defaults : ℝ × ℝ := (0, 1)

/-- A floating-point-style value as produced by numpy arithmetic in
`_TubeComponent.compute`: a finite real, +inf, −inf, or NaN.  numpy raises no
exception on degenerate input; the operations below follow IEEE-754 double
semantics for the non-finite values (finite arithmetic is modelled exactly,
without overflow, which the magnitudes here never reach). -/
inductive FP where
  | fin (x : ℝ) : FP
  | inf : FP
  | ninf : FP
  | nan : FP

/-- Whether a floating-point value is finite. -/
def FP.finite : FP → Bool
  | fin _ => true
  | _ => false

/-- IEEE addition: inf + (−inf) is NaN, an infinity absorbs finite
addends, NaN propagates. -/
def FP.add : FP → FP → FP
  | fin a, fin b => fin (a + b)
  | fin _, inf => inf
  | inf, fin _ => inf
  | fin _, ninf => ninf
  | ninf, fin _ => ninf
  | inf, inf => inf
  | ninf, ninf => ninf
  | _, _ => nan

/-- IEEE subtraction: an infinite minuend absorbs finite subtrahends,
inf − inf is NaN, NaN propagates. -/
def FP.sub : FP → FP → FP
  | fin a, fin b => fin (a - b)
  | inf, fin _ => inf
  | ninf, fin _ => ninf
  | fin _, inf => ninf
  | fin _, ninf => inf
  | inf, ninf => inf
  | ninf, inf => ninf
  | _, _ => nan

/-- IEEE squaring (`** 2`): both infinities square to +inf, NaN propagates. -/
def FP.sq : FP → FP
  | fin a => fin (a ^ 2)
  | inf => inf
  | ninf => inf
  | nan => nan

/-- IEEE division: a finite number divided by (positive) zero is ±inf by the
sign of the numerator and 0/0 is NaN; a finite number divided by an infinity
is 0; an infinity divided by a finite number keeps its (sign-adjusted)
infinity; inf/inf and anything with NaN is NaN. -/
noncomputable def FP.div : FP → FP → FP
  | fin a, fin b =>
      if b = 0 then (if 0 < a then inf else if a < 0 then ninf else nan)
      else fin (a / b)
  | fin _, inf => fin 0
  | fin _, ninf => fin 0
  | inf, fin b => if b < 0 then ninf else inf
  | ninf, fin b => if b < 0 then inf else ninf
  | _, _ => nan

/-- IEEE square root: NaN on negative arguments and on NaN and −inf,
+inf on +inf. -/
noncomputable def FP.sqrt : FP → FP
  | fin a => if a < 0 then nan else fin (Real.sqrt a)
  | inf => inf
  | _ => nan

/-- Outputs of `_TubeComponent.compute` in the floating-point model. -/
structure FPOutputs where
  area : FP
  thickness : FP
  safety_margins : FP
  diam_over_thickness : FP

/-- Embeds `_TubeComponent.compute` (src/tubeopt.py lines 37-65) in the
floating-point model: the trial point handed over by the optimizer consists of
finite reals; every division and the square root go through `FP`, so a
division by zero yields a non-finite value that propagates, as numpy
arithmetic does without raising. -/
noncomputable def computeFP (inner_diam outer_diam axial_force bending_moment : ℝ) : FPOutputs :=
  let area := FP.fin (0.25 * π * (outer_diam ^ 2 - inner_diam ^ 2))
  let thickness := FP.fin ((outer_diam - inner_diam) / 2)
  let diam_over_thickness := FP.div (FP.fin outer_diam) thickness
  let moment_of_inertia := FP.fin (π / 4 * ((outer_diam / 2) ^ 4 - (inner_diam / 2) ^ 4))
  let radius := outer_diam / 2
  let axial_stress := FP.div (FP.fin axial_force) area
  let bending_stress := FP.div (FP.fin (bending_moment * radius)) moment_of_inertia
  let tensile_stress :=
    FP.sqrt (FP.add (FP.sq (FP.add axial_stress bending_stress)) (FP.fin 0.001))
  let safety_margin := FP.sub (FP.div (FP.fin 350e6) tensile_stress) (FP.fin 1)
  { area := area, thickness := thickness,
    safety_margins := safety_margin, diam_over_thickness := diam_over_thickness }

/-- Rounding to `n` decimals moves a real by at most half of the last kept
decimal place. -/
theorem roundTo_abs_le (n : ℕ) (x : ℝ) : |roundTo n x - x| ≤ 1 / (2 * 10 ^ n) := by
  have h10 : (0 : ℝ) < 10 ^ n := by positivity
  have h := abs_sub_round (x * 10 ^ n)
  rw [abs_sub_comm] at h
  have hx : roundTo n x - x = (((round (x * 10 ^ n) : ℤ) : ℝ) - x * 10 ^ n) / 10 ^ n := by
    rw [roundTo]
    field_simp
    ring
  rw [hx, abs_div, abs_of_pos h10,
    show (1 : ℝ) / (2 * 10 ^ n) = (1 / 2) / 10 ^ n by ring]
  exact (div_le_div_iff_of_pos_right h10).mpr h

/-- C1: for every `inner_diam` and `outer_diam` with
`0 < inner_diam < outer_diam` and all real loads, `compute` returns exactly
`area = π/4·(outer² − inner²)`, `thickness = (outer − inner)/2`,
`diam_over_thickness = outer/thickness`, and
`safety_margin = 350e6 / sqrt((axial/area + M·(outer/2)/(π/4·((outer/2)⁴ − (inner/2)⁴)))² + 0.001) − 1`,
with the smoothing term ε = 0.001 and the fixed yield strength 350e6 Pa. -/
theorem compute_closed_form (i o F M : ℝ) (h0 : 0 < i) (h1 : i < o) :
    (compute i o F M).area = π / 4 * (o ^ 2 - i ^ 2) ∧
    (compute i o F M).thickness = (o - i) / 2 ∧
    (compute i o F M).diam_over_thickness = o / ((o - i) / 2) ∧
    (compute i o F M).safety_margins =
      350e6 / Real.sqrt ((F / (π / 4 * (o ^ 2 - i ^ 2)) +
        M * (o / 2) / (π / 4 * ((o / 2) ^ 4 - (i / 2) ^ 4))) ^ 2 + 0.001) - 1 := by
  refine ⟨by simp only [compute]; ring, rfl, rfl, ?_⟩
  simp only [compute, tensile_stress]
  rw [show (0.25 : ℝ) * π * (o ^ 2 - i ^ 2) = π / 4 * (o ^ 2 - i ^ 2) by ring]

/-- Witness for C1 at the concrete design point inner = 1 m, outer = 2 m with
loads F = 3 N, M = 5 N·m. -/
theorem compute_closed_form_witness :
    (0 : ℝ) < 1 ∧ (1 : ℝ) < 2 ∧
    ((compute 1 2 3 5).area = π / 4 * (2 ^ 2 - 1 ^ 2) ∧
     (compute 1 2 3 5).thickness = (2 - 1) / 2 ∧
     (compute 1 2 3 5).diam_over_thickness = 2 / ((2 - 1) / 2) ∧
     (compute 1 2 3 5).safety_margins =
       350e6 / Real.sqrt ((3 / (π / 4 * (2 ^ 2 - 1 ^ 2)) +
         5 * (2 / 2) / (π / 4 * ((2 / 2) ^ 4 - (1 / 2) ^ 4))) ^ 2 + 0.001) - 1) :=
  ⟨by norm_num, by norm_num, compute_closed_form 1 2 3 5 (by norm_num) (by norm_num)⟩

/-- C2: the first component of the value returned by `optimize` is true
exactly when the driver reports no failure flag, and even when the driver
fails the numeric tuple is still populated from the last iterate — no
exception is raised, the result is total. -/
theorem optimize_converged_flag (F M m t : ℝ) (driver : ProblemSetup → Bool × ℝ × ℝ) :
    ((optimize F M m t driver).1 = true ↔ (driver (setup t m)).1 = false) ∧
    ((driver (setup t m)).1 = true →
      (optimize F M m t driver).1 = false ∧
      (optimize F M m t driver).2 =
        (roundTo 3 (1000 * (driver (setup t m)).2.1),
         roundTo 3 (1000 * (driver (setup t m)).2.2),
         roundTo 3 (1000 * (compute (driver (setup t m)).2.1 (driver (setup t m)).2.2 F M).thickness),
         roundTo 4 (compute (driver (setup t m)).2.1 (driver (setup t m)).2.2 F M).safety_margins)) := by
  have hfst : (optimize F M m t driver).1 = !(driver (setup t m)).1 := rfl
  have hsnd : (optimize F M m t driver).2 =
      (roundTo 3 (1000 * (driver (setup t m)).2.1),
       roundTo 3 (1000 * (driver (setup t m)).2.2),
       roundTo 3 (1000 * (compute (driver (setup t m)).2.1 (driver (setup t m)).2.2 F M).thickness),
       roundTo 4 (compute (driver (setup t m)).2.1 (driver (setup t m)).2.2 F M).safety_margins) := rfl
  constructor
  · rw [hfst]
    simp
  · intro h
    rw [hfst, hsnd, h]
    exact ⟨rfl, rfl⟩

/-- Witness for C2 with a driver that always fails at the initial guess. -/
theorem optimize_converged_flag_witness :
    (((optimize 0 0 0 0 (fun _ => (true, 0.06, 0.1))).1 = true ↔
      ((fun (_ : ProblemSetup) => (true, (0.06 : ℝ), (0.1 : ℝ))) (setup 0 0)).1 = false) ∧
     (((fun (_ : ProblemSetup) => (true, (0.06 : ℝ), (0.1 : ℝ))) (setup 0 0)).1 = true →
       (optimize 0 0 0 0 (fun _ => (true, 0.06, 0.1))).1 = false ∧
       (optimize 0 0 0 0 (fun _ => (true, 0.06, 0.1))).2 =
         (roundTo 3 (1000 * 0.06), roundTo 3 (1000 * 0.1),
          roundTo 3 (1000 * (compute 0.06 0.1 0 0).thickness),
          roundTo 4 (compute 0.06 0.1 0 0).safety_margins))) :=
  optimize_converged_flag 0 0 0 0 (fun _ => (true, 0.06, 0.1))

/-- C3: for every call with `minimum_thickness` t (mm) and
`minimum_safety_margin` m, the problem is set up with design-variable bounds
inner_diam ∈ [0.005, 0.5] m and outer_diam ∈ [0.01, 0.6] m, exactly the three
inequality constraints thickness ≥ t/1000, safety_margins ≥ m and
diam_over_thickness ∈ [2, 25], the objective `area`, and the fixed initial
guess inner_diam = 0.060 m, outer_diam = 0.100 m — independent of the load
case, which `setup` does not even receive. -/
theorem setup_spec (t m : ℝ) :
    (setup t m).design_vars = [⟨"inner_diam", 0.005, 0.5⟩, ⟨"outer_diam", 0.01, 0.6⟩] ∧
    (setup t m).constraints = [⟨"thickness", some (t / 1000), none⟩,
                               ⟨"safety_margins", some m, none⟩,
                               ⟨"diam_over_thickness", some 2, some 25⟩] ∧
    (setup t m).constraints.length = 3 ∧
    (setup t m).objective = "area" ∧
    (setup t m).inputs = [⟨"inner_diam", 0.060, "m"⟩, ⟨"outer_diam", 0.100, "m"⟩] :=
  ⟨rfl, rfl, rfl, rfl, rfl⟩

/-- C4 counterexample: the first keyword parameter of
`TubeOptimization.optimize` is not named `minimum_safety_margin`; the source
(src/tubeopt.py line 87) spells it `minimim_safety_margin`, so a keyword call
under the claimed name would be rejected. -/
theorem optimize_param_names_ne_claimed :
    optimize_param_names ≠ ["minimum_safety_margin", "minimum_thickness"] := by
  decide

/-- C4 amended: `optimize` accepts keyword parameters named
`minimim_safety_margin` (sic, unitless, default 0) and `minimum_thickness`
(mm, default 1), and returns a pair of the converged flag and the quadruple
(inner_diam_mm, outer_diam_mm, thickness_mm, safety_margin). -/
theorem optimize_signature :
    optimize_param_names = ["minimim_safety_margin", "minimum_thickness"] ∧
    optimize_defaults = (0, 1) ∧
    ∀ (F M m t : ℝ) (driver : ProblemSetup → Bool × ℝ × ℝ),
      optimize F M m t driver =
        (!(driver (setup t m)).1,
         roundTo 3 (1000 * (driver (setup t m)).2.1),
         roundTo 3 (1000 * (driver (setup t m)).2.2),
         roundTo 3 (1000 * (compute (driver (setup t m)).2.1 (driver (setup t m)).2.2 F M).thickness),
         roundTo 4 (compute (driver (setup t m)).2.1 (driver (setup t m)).2.2 F M).safety_margins) :=
  ⟨rfl, rfl, fun _ _ _ _ _ => rfl⟩

/-- C5: on every input with `outer_diam ≤ inner_diam` the structural model
raises no error — `computeFP` is total and simply returns what the arithmetic
produces.  At `outer_diam = inner_diam` the thickness is the finite value 0
and the division `outer_diam / thickness` is a division by zero whose
non-finite result (±inf or NaN) lands in `diam_over_thickness`; with positive
outer diameter and positive loads the stress chain runs through +inf and the
safety margin comes back as the finite value 350e6/inf − 1 = −1.0, exactly as
IEEE arithmetic produces.  At `outer_diam < inner_diam` with positive
`outer_diam` the ratio is a finite negative number. -/
theorem computeFP_degenerate (i o F M : ℝ) (hle : o ≤ i) :
    (∃ out : FPOutputs, computeFP i o F M = out) ∧
    (o = i →
      (computeFP i o F M).thickness = FP.fin 0 ∧
      FP.finite (computeFP i o F M).diam_over_thickness = false ∧
      (0 < o → 0 < F → 0 < M →
        (computeFP i o F M).safety_margins = FP.fin (-1))) ∧
    (o < i → 0 < o →
      ∃ v : ℝ, (computeFP i o F M).diam_over_thickness = FP.fin v ∧ v < 0) := by
  refine ⟨⟨computeFP i o F M, rfl⟩, ?_, ?_⟩
  · rintro rfl
    have hth : ((o - o) / 2 : ℝ) = 0 := by ring
    have harea : (0.25 * π * (o ^ 2 - o ^ 2) : ℝ) = 0 := by ring
    have hmoi : (π / 4 * ((o / 2) ^ 4 - (o / 2) ^ 4) : ℝ) = 0 := by ring
    refine ⟨?_, ?_, ?_⟩
    · simp [computeFP, hth]
    · simp only [computeFP, hth]
      rw [FP.div, if_pos rfl]
      split_ifs <;> rfl
    · intro ho hF hM
      have hnum : (0 : ℝ) < M * (o / 2) := by positivity
      simp only [computeFP, hth, harea, hmoi]
      rw [show FP.div (FP.fin F) (FP.fin 0) = FP.inf by
            rw [FP.div, if_pos rfl, if_pos hF],
          show FP.div (FP.fin (M * (o / 2))) (FP.fin 0) = FP.inf by
            rw [FP.div, if_pos rfl, if_pos hnum]]
      norm_num [FP.add, FP.sq, FP.sqrt, FP.div, FP.sub]
  · intro hlt hpos
    have hth : (o - i) / 2 ≠ 0 := by
      intro h
      have : o - i = 0 := by linarith [(div_eq_zero_iff.mp h).resolve_right (by norm_num)]
      linarith
    refine ⟨o / ((o - i) / 2), ?_, ?_⟩
    · simp [computeFP, FP.div, hth]
    · apply div_neg_of_pos_of_neg hpos
      linarith

/-- Witness for C5 at the degenerate square point inner = outer = 1 m with
loads F = 2 N, M = 3 N·m, where the returned safety margin is the finite
value −1.0. -/
theorem computeFP_degenerate_witness :
    (1 : ℝ) ≤ 1 ∧
    ((∃ out : FPOutputs, computeFP 1 1 2 3 = out) ∧
     ((1 : ℝ) = 1 →
       (computeFP 1 1 2 3).thickness = FP.fin 0 ∧
       FP.finite (computeFP 1 1 2 3).diam_over_thickness = false ∧
       ((0 : ℝ) < 1 → (0 : ℝ) < 2 → (0 : ℝ) < 3 →
         (computeFP 1 1 2 3).safety_margins = FP.fin (-1))) ∧
     ((1 : ℝ) < 1 → 0 < (1 : ℝ) →
       ∃ v : ℝ, (computeFP 1 1 2 3).diam_over_thickness = FP.fin v ∧ v < 0)) :=
  ⟨le_refl 1, computeFP_degenerate 1 1 2 3 (le_refl 1)⟩

/-- C6: the numeric tuple returned by `optimize` consists of the final solver
values converted to millimeters and rounded to 3 decimal places (inner and
outer diameter and the model thickness at the final iterate) together with
the unitless safety margin rounded to 4 decimal places; `roundTo n` is a
genuine rounding to n decimals, within 1/(2·10ⁿ) of its argument. -/
theorem optimize_rounding (F M m t : ℝ) (driver : ProblemSetup → Bool × ℝ × ℝ) :
    (optimize F M m t driver).2 =
      (roundTo 3 (1000 * (driver (setup t m)).2.1),
       roundTo 3 (1000 * (driver (setup t m)).2.2),
       roundTo 3 (1000 * (compute (driver (setup t m)).2.1 (driver (setup t m)).2.2 F M).thickness),
       roundTo 4 (compute (driver (setup t m)).2.1 (driver (setup t m)).2.2 F M).safety_margins) ∧
    (∀ x : ℝ, |roundTo 3 x - x| ≤ 1 / 2000) ∧
    (∀ x : ℝ, |roundTo 4 x - x| ≤ 1 / 20000) := by
  refine ⟨rfl, fun x => ?_, fun x => ?_⟩
  · have h := roundTo_abs_le 3 x
    norm_num at h ⊢
    linarith
  · have h := roundTo_abs_le 4 x
    norm_num at h ⊢
    linarith

/-- C7: holding `inner_diam` fixed, the area computed by the structural model
is strictly increasing in `outer_diam` over positive outer diameters. -/
theorem area_strictMono_outer (i d1 d2 F M : ℝ) (hpos : 0 < d1) (hlt : d1 < d2) :
    (compute i d1 F M).area < (compute i d2 F M).area := by
  simp only [compute]
  have hsq : d1 ^ 2 < d2 ^ 2 := by nlinarith
  nlinarith [pi_pos]

/-- Witness for C7 with inner = 0.5 m and outer diameters 1 m < 2 m. -/
theorem area_strictMono_outer_witness :
    (0 : ℝ) < 1 ∧ (1 : ℝ) < 2 ∧
    (compute 0.5 1 10 20).area < (compute 0.5 2 10 20).area :=
  ⟨by norm_num, by norm_num, area_strictMono_outer 0.5 1 2 10 20 (by norm_num) (by norm_num)⟩

/-- C8: with zero axial force and zero bending moment and a valid geometry
`0 < inner_diam < outer_diam`, the combined tensile stress is exactly
`sqrt 0.001` and the safety margin is exactly `350e6 / sqrt 0.001 − 1`, an
astronomically large value (it exceeds 10⁹). -/
theorem compute_zero_load (i o : ℝ) (h0 : 0 < i) (h1 : i < o) :
    tensile_stress i o 0 0 = Real.sqrt 0.001 ∧
    (compute i o 0 0).safety_margins = 350e6 / Real.sqrt 0.001 - 1 ∧
    (10 : ℝ) ^ 9 < (compute i o 0 0).safety_margins := by
  have hts : tensile_stress i o 0 0 = Real.sqrt 0.001 := by
    simp only [tensile_stress]
    norm_num
  have hmm : (compute i o 0 0).safety_margins = 350e6 / Real.sqrt 0.001 - 1 := by
    simp only [compute, hts]
  refine ⟨hts, hmm, ?_⟩
  rw [hmm]
  have hlt : Real.sqrt 0.001 < 0.032 := by
    have : Real.sqrt 0.001 < Real.sqrt (0.032 ^ 2) := by
      apply Real.sqrt_lt_sqrt (by norm_num)
      norm_num
    simpa [Real.sqrt_sq (by norm_num : (0.032 : ℝ) ≥ 0).le] using this
  have hpos : 0 < Real.sqrt 0.001 := Real.sqrt_pos.mpr (by norm_num)
  have hdiv : (350e6 : ℝ) / 0.032 < 350e6 / Real.sqrt 0.001 := by
    apply div_lt_div_of_pos_left (by norm_num) hpos hlt
  nlinarith

/-- Witness for C8 at inner = 1 m, outer = 2 m. -/
theorem compute_zero_load_witness :
    (0 : ℝ) < 1 ∧ (1 : ℝ) < 2 ∧
    (tensile_stress 1 2 0 0 = Real.sqrt 0.001 ∧
     (compute 1 2 0 0).safety_margins = 350e6 / Real.sqrt 0.001 - 1 ∧
     (10 : ℝ) ^ 9 < (compute 1 2 0 0).safety_margins) :=
  ⟨by norm_num, by norm_num, compute_zero_load 1 2 (by norm_num) (by norm_num)⟩

/-- C9: `compute` is deterministic — two evaluations with identical
`inner_diam`, `outer_diam`, `axial_force` and `bending_moment` produce
identical outputs; the embedding reads no state other than these inputs. -/
theorem compute_deterministic (i1 o1 F1 M1 i2 o2 F2 M2 : ℝ)
    (hi : i1 = i2) (ho : o1 = o2) (hF : F1 = F2) (hM : M1 = M2) :
    compute i1 o1 F1 M1 = compute i2 o2 F2 M2 := by
  subst hi; subst ho; subst hF; subst hM; rfl

/-- Witness for C9 at the concrete input (0.06, 0.1, 10000, 5000) twice. -/
theorem compute_deterministic_witness :
    (0.06 : ℝ) = 0.06 ∧ (0.1 : ℝ) = 0.1 ∧ (10000 : ℝ) = 10000 ∧ (5000 : ℝ) = 5000 ∧
    compute 0.06 0.1 10000 5000 = compute 0.06 0.1 10000 5000 :=
  ⟨rfl, rfl, rfl, rfl, compute_deterministic 0.06 0.1 10000 5000 0.06 0.1 10000 5000 rfl rfl rfl rfl⟩

/-- C10: whenever area and moment of inertia are nonzero (so both stress
components are finite reals), the combined tensile stress is at least
`sqrt 0.001 > 0`, the division defining the safety margin is never by zero,
and the safety margin is bounded above by `350e6 / sqrt 0.001 − 1` for every
input. -/
theorem safety_margin_upper_bound (i o F M : ℝ)
    (ha : 0.25 * π * (o ^ 2 - i ^ 2) ≠ 0)
    (hm : π / 4 * ((o / 2) ^ 4 - (i / 2) ^ 4) ≠ 0) :
    0 < tensile_stress i o F M ∧
    Real.sqrt 0.001 ≤ tensile_stress i o F M ∧
    (compute i o F M).safety_margins ≤ 350e6 / Real.sqrt 0.001 - 1 := by
  have hsqrtpos : 0 < Real.sqrt 0.001 := Real.sqrt_pos.mpr (by norm_num)
  have hle : Real.sqrt 0.001 ≤ tensile_stress i o F M := by
    simp only [tensile_stress]
    apply Real.sqrt_le_sqrt
    nlinarith [sq_nonneg (F / (0.25 * π * (o ^ 2 - i ^ 2)) +
      M * (o / 2) / (π / 4 * ((o / 2) ^ 4 - (i / 2) ^ 4)))]
  have hpos : 0 < tensile_stress i o F M := lt_of_lt_of_le hsqrtpos hle
  refine ⟨hpos, hle, ?_⟩
  simp only [compute]
  have : (350e6 : ℝ) / tensile_stress i o F M ≤ 350e6 / Real.sqrt 0.001 :=
    div_le_div_of_nonneg_left (by norm_num) hsqrtpos hle
  linarith

/-- Witness for C10 at inner = 1 m, outer = 2 m, F = 10000 N, M = 5000 N·m. -/
theorem safety_margin_upper_bound_witness :
    (0.25 * π * ((2 : ℝ) ^ 2 - 1 ^ 2) ≠ 0 ∧ π / 4 * (((2 : ℝ) / 2) ^ 4 - (1 / 2) ^ 4) ≠ 0) ∧
    (0 < tensile_stress 1 2 10000 5000 ∧
     Real.sqrt 0.001 ≤ tensile_stress 1 2 10000 5000 ∧
     (compute 1 2 10000 5000).safety_margins ≤ 350e6 / Real.sqrt 0.001 - 1) := by
  have ha : 0.25 * π * ((2 : ℝ) ^ 2 - 1 ^ 2) ≠ 0 := by
    have : (0 : ℝ) < 0.25 * π * (2 ^ 2 - 1 ^ 2) := by
      have := pi_pos
      nlinarith
    exact ne_of_gt this
  have hm : π / 4 * (((2 : ℝ) / 2) ^ 4 - (1 / 2) ^ 4) ≠ 0 := by
    have : (0 : ℝ) < π / 4 * ((2 / 2) ^ 4 - (1 / 2) ^ 4) := by
      have := pi_pos
      nlinarith
    exact ne_of_gt this
  exact ⟨⟨ha, hm⟩, safety_margin_upper_bound 1 2 10000 5000 ha hm⟩

end TubeOpt
